import Mathlib

/-!
Verification of the plaindesk_auth authentication core.

Shallow embedding of:
* `src/auth/jwt_handler.py`   — local (symmetric) JWT issuance and verification,
* `src/auth/supabase_auth.py` — asymmetric verification against a remote JWKS,
* `src/services/auth_service.py` — password hashing and local login/registration,
* `src/routes/appointments.py`, `src/routes/auth.py` — the guarded listing route and
  the widgets-by-email route.

Cryptographic primitives (HMAC-SHA256, RS256, bcrypt) are modelled as ideal
primitives: a signature (resp. digest) is represented by the data it commits to,
so equal inputs sign equally and distinct keys/secrets give distinct signatures.
Remote I/O (the JWKS fetch, the Supabase user lookup, the database) is passed in
explicitly as a value describing the outcome of the call.
Time is an integer Unix timestamp in seconds.
-/

namespace PlaindeskAuth

/-! ## Symmetric JWT handler (`src/auth/jwt_handler.py`) -/

/-- Process-wide configuration read from the environment in `jwt_handler.py`:
`SECRET_KEY`, `ALGORITHM`, `ACCESS_TOKEN_EXPIRE_MINUTES`. -/
structure JwtConfig where
  secretKey : String
  algorithm : String
  accessTokenExpireMinutes : Nat
deriving DecidableEq, Repr

/-- The defaults used when the environment variables are unset. -/
def defaultConfig : JwtConfig :=
  { secretKey := "supersecretkey", algorithm := "HS256", accessTokenExpireMinutes := 30 }

/-- The claim set carried by a locally issued token: the `sub` claim plus the
`exp` claim (absolute Unix seconds) that `create_access_token` adds. -/
structure Claims where
  sub : String
  exp : Option Int
deriving DecidableEq, Repr

/-- An ideal HMAC signature: it commits to the algorithm, the key and the
signed payload, and two signatures are equal exactly when all three agree. -/
structure Signature where
  alg : String
  key : String
  signedPayload : Claims
deriving DecidableEq, Repr

/-- `jwt.encode`'s signing step, idealised. -/
def hmacSign (cfg : JwtConfig) (payload : Claims) : Signature :=
  { alg := cfg.algorithm, key := cfg.secretKey, signedPayload := payload }

/-- A token string as seen by `jwt.decode`: either it does not split into valid
header/payload/signature segments, or it carries a payload and a signature. -/
inductive EncodedToken where
  | malformed
  | signed (payload : Claims) (sig : Signature)
deriving DecidableEq, Repr

/-- `create_access_token(data)`: copies the claim set, sets
`exp = now + ACCESS_TOKEN_EXPIRE_MINUTES` (minutes, i.e. `60 *` in seconds)
and signs with the configured secret and algorithm. -/
def create_access_token (cfg : JwtConfig) (data : Claims) (now : Int) : EncodedToken :=
  let toEncode : Claims :=
    { data with exp := some (now + 60 * (cfg.accessTokenExpireMinutes : Int)) }
  .signed toEncode (hmacSign cfg toEncode)

/-- The distinguishable failure kinds of `jose.jwt.decode` as re-raised by
`verify_access_token`: an unparseable token, a signature that does not verify,
an elapsed `exp` claim. -/
inductive JwtError where
  | Malformed
  | InvalidSignature
  | Expired
deriving DecidableEq, Repr

/-- `jose`'s `exp` validation with its default zero leeway: the token is
expired exactly when `exp < now`. -/
def validateExp (payload : Claims) (now : Int) : Except JwtError Claims :=
  match payload.exp with
  | none => .ok payload
  | some e => if e < now then .error .Expired else .ok payload

/-- `verify_access_token(token)`: `jwt.decode(token, SECRET_KEY, [ALGORITHM])`,
which parses, verifies the signature, then validates `exp`; any `JWTError`
is re-raised unchanged. -/
def verify_access_token (cfg : JwtConfig) (token : EncodedToken) (now : Int) :
    Except JwtError Claims :=
  match token with
  | .malformed => .error .Malformed
  | .signed payload sig =>
    if sig = hmacSign cfg payload then validateExp payload now
    else .error .InvalidSignature

/-- The `exp` claim carried by a token, if any. -/
def tokenExp : EncodedToken → Option Int
  | .malformed => none
  | .signed payload _ => payload.exp

/-! ## Theorems for the symmetric handler -/

/-- C1: Round-trip of local issuance and symmetric verification: for every
subject, verifying (under the same configuration, at any time `t` before the
expiry `now + TTL`) a token issued at `now` for that subject succeeds and the
returned claims carry exactly that subject. -/
theorem C1_issue_verify_roundtrip (cfg : JwtConfig) (subject : String) (now t : Int)
    (h : t ≤ now + 60 * (cfg.accessTokenExpireMinutes : Int)) :
    verify_access_token cfg (create_access_token cfg { sub := subject, exp := none } now) t =
      .ok { sub := subject, exp := some (now + 60 * (cfg.accessTokenExpireMinutes : Int)) } := by
  have hlt : ¬ (now + 60 * (cfg.accessTokenExpireMinutes : Int) < t) := by omega
  simp [verify_access_token, create_access_token, validateExp, hlt]

/-- Witness for C1 at `cfg = defaultConfig`, `subject = "alice"`, `now = 0`,
`t = 0`. -/
theorem C1_issue_verify_roundtrip_witness :
    (0 : Int) ≤ 0 + 60 * ((30 : Nat) : Int) ∧
    verify_access_token defaultConfig
        (create_access_token defaultConfig { sub := "alice", exp := none } 0) 0 =
      .ok { sub := "alice", exp := some 1800 } :=
  ⟨by decide, C1_issue_verify_roundtrip defaultConfig "alice" 0 0 (by decide)⟩

/-- C2: Expiry boundary: a token issued at `now` carries the absolute expiry
`now + TTL` (TTL = 60 · configured minutes, in seconds), verifies successfully
at `now + TTL - 1` and fails with `Expired` at `now + TTL + 1`, with zero
grace period (jose's default leeway is 0). -/
theorem C2_expiry_boundary (cfg : JwtConfig) (subject : String) (now : Int) :
    tokenExp (create_access_token cfg { sub := subject, exp := none } now) =
      some (now + 60 * (cfg.accessTokenExpireMinutes : Int)) ∧
    verify_access_token cfg (create_access_token cfg { sub := subject, exp := none } now)
        (now + 60 * (cfg.accessTokenExpireMinutes : Int) - 1) =
      .ok { sub := subject, exp := some (now + 60 * (cfg.accessTokenExpireMinutes : Int)) } ∧
    verify_access_token cfg (create_access_token cfg { sub := subject, exp := none } now)
        (now + 60 * (cfg.accessTokenExpireMinutes : Int) + 1) =
      .error .Expired := by
  refine ⟨rfl, ?_, ?_⟩
  · have hlt : ¬ (now + 60 * (cfg.accessTokenExpireMinutes : Int) <
        now + 60 * (cfg.accessTokenExpireMinutes : Int) - 1) := by omega
    simp [verify_access_token, create_access_token, validateExp, hlt]
  · have hlt : now + 60 * (cfg.accessTokenExpireMinutes : Int) <
        now + 60 * (cfg.accessTokenExpireMinutes : Int) + 1 := by omega
    simp [verify_access_token, create_access_token, validateExp, hlt]

/-- C5: Symmetric verification failure taxonomy: a token issued under secret A
and verified under a configuration with a different secret B fails with
`InvalidSignature` (never `Expired` or `Malformed`); an unparseable token fails
with `Malformed`; a correctly signed token whose expiry has passed fails with
`Expired`; and the three outcomes are pairwise distinct. -/
theorem C5_failure_taxonomy (cfgA cfgB : JwtConfig) (data : Claims) (now t : Int)
    (hsec : cfgA.secretKey ≠ cfgB.secretKey) :
    verify_access_token cfgB (create_access_token cfgA data now) t =
      .error .InvalidSignature ∧
    verify_access_token cfgB .malformed t = .error .Malformed ∧
    (∀ p : Claims, ∀ e : Int, p.exp = some e → e < t →
      verify_access_token cfgB (.signed p (hmacSign cfgB p)) t = .error .Expired) ∧
    (JwtError.InvalidSignature ≠ JwtError.Expired ∧
      JwtError.InvalidSignature ≠ JwtError.Malformed ∧
      JwtError.Expired ≠ JwtError.Malformed) := by
  refine ⟨?_, rfl, ?_, by decide⟩
  · have hne : hmacSign cfgA
        { data with exp := some (now + 60 * (cfgA.accessTokenExpireMinutes : Int)) } ≠
        hmacSign cfgB
        { data with exp := some (now + 60 * (cfgA.accessTokenExpireMinutes : Int)) } := by
      intro h
      exact hsec (congrArg Signature.key h)
    simp [verify_access_token, create_access_token, hne]
  · intro p e hexp hlt
    simp [verify_access_token, validateExp, hexp, hlt]

/-- Witness for C5 at two default-like configurations differing in the secret,
`data = ⟨"alice", none⟩`, `now = 0`, `t = 0` (with the expired part used at
`p = ⟨"alice", some (-1)⟩`, `e = -1`). -/
theorem C5_failure_taxonomy_witness :
    ("supersecretkey" : String) ≠ "othersecretkey" ∧
    verify_access_token { defaultConfig with secretKey := "othersecretkey" }
        (create_access_token defaultConfig { sub := "alice", exp := none } 0) 0 =
      .error .InvalidSignature ∧
    verify_access_token { defaultConfig with secretKey := "othersecretkey" }
        (.signed { sub := "alice", exp := some (-1) }
          (hmacSign { defaultConfig with secretKey := "othersecretkey" }
            { sub := "alice", exp := some (-1) })) 0 =
      .error .Expired := by
  have h := C5_failure_taxonomy defaultConfig
    { defaultConfig with secretKey := "othersecretkey" }
    { sub := "alice", exp := none } 0 0 (by decide)
  exact ⟨by decide, h.1, h.2.2.1 { sub := "alice", exp := some (-1) } (-1) rfl (by decide)⟩

/-! ## Asymmetric verification against the Supabase JWKS
(`src/auth/supabase_auth.py`) -/

/-- One entry of the fetched JWKS: its `kid` field (absent keys have `none`)
and its public key material. -/
structure Jwk where
  kid : Option String
  material : String
deriving DecidableEq, Repr

/-- The JSON document returned by the JWKS endpoint; `jwks.get("keys", [])`. -/
structure Jwks where
  keys : List Jwk
deriving DecidableEq, Repr

/-- An ideal RS256 signature: it commits to the algorithm, the key material of
the keypair that produced it, and the signed payload. -/
structure RsSignature where
  alg : String
  material : String
  signedPayload : Claims
deriving DecidableEq, Repr

/-- A token string as seen by `verify_supabase_jwt`. `header` is the result of
`jwt.get_unverified_header`: `none` when the header is unparseable (a
`JWTError`), otherwise the optional `kid` field of the parsed header. -/
structure SupabaseToken where
  header : Option (Option String)
  payload : Claims
  sig : RsSignature
deriving DecidableEq, Repr

/-- The FastAPI exception raised on each failure path: status code and detail. -/
structure HTTPException where
  statusCode : Nat
  detail : String
deriving DecidableEq, Repr

/-- `fetch_jwks` failure: HTTP 500, JWKS could not be fetched from Supabase. -/
def jwksFetchEx : HTTPException :=
  { statusCode := 500, detail := "JWKS fetch from Supabase failed" }

/-- Unparseable JWT header: HTTP 401. -/
def malformedHeaderEx : HTTPException :=
  { statusCode := 401, detail := "Invalid JWT header" }

/-- Header parsed but `kid` missing (or empty, which `if not kid` also treats
as missing): HTTP 401. -/
def missingKidEx : HTTPException :=
  { statusCode := 401, detail := "Missing kid in token header" }

/-- No JWKS entry with a matching `kid`: HTTP 401. -/
def unknownKeyEx : HTTPException :=
  { statusCode := 401, detail := "Public key for token verification not found" }

/-- `jwt.decode` with the located key failed (bad signature or expired):
HTTP 401, a single shared outcome. -/
def invalidOrExpiredEx : HTTPException :=
  { statusCode := 401, detail := "Invalid or expired token" }

/-- `fetch_jwks()`: performs the remote GET, whose outcome is passed in as
`remote`; any failure is converted to the HTTP 500 exception. -/
def fetch_jwks (remote : Except Unit Jwks) : Except HTTPException Jwks :=
  match remote with
  | .error _ => .error jwksFetchEx
  | .ok jwks => .ok jwks

/-- `jose.jwt.decode(token, public_key, algorithms=["RS256"])`, idealised:
succeeds exactly when the signature was made with RS256 over this payload by
the keypair whose public material is `key`, and the `exp` claim (if present)
has not elapsed (zero leeway). -/
def rs256Decode (key : Jwk) (token : SupabaseToken) (now : Int) : Option Claims :=
  if token.sig = { alg := "RS256", material := key.material,
                   signedPayload := token.payload : RsSignature } then
    match token.payload.exp with
    | none => some token.payload
    | some e => if e < now then none else some token.payload
  else none

/-- `verify_supabase_jwt(token)`: first calls `fetch_jwks()`, then parses the
unverified header, extracts `kid`, locates the matching JWKS entry and decodes
with it. Each failure raises the corresponding `HTTPException`. -/
def verify_supabase_jwt (remote : Except Unit Jwks) (token : SupabaseToken) (now : Int) :
    Except HTTPException Claims :=
  match fetch_jwks remote with
  | .error e => .error e
  | .ok jwks =>
    match token.header with
    | none => .error malformedHeaderEx
    | some kidField =>
      match kidField with
      | none => .error missingKidEx
      | some kid =>
        if kid = "" then .error missingKidEx
        else
          match jwks.keys.find? (fun k => k.kid == some kid) with
          | none => .error unknownKeyEx
          | some key =>
            match rs256Decode key token now with
            | some payload => .ok payload
            | none => .error invalidOrExpiredEx

/-- C3: Key-rotation discrimination: for every well-formed token (parsed
header, non-empty `kid`) whose `kid` matches no entry of the fetched key set,
verification fails with the unknown-key outcome, which is distinct from the
invalid-signature/expired outcome, from both malformed outcomes and from the
key-set-unavailable outcome. -/
theorem C3_unknown_key_discriminated (jwks : Jwks) (token : SupabaseToken)
    (kid : String) (now : Int)
    (hh : token.header = some (some kid)) (hne : kid ≠ "")
    (habs : ∀ k ∈ jwks.keys, k.kid ≠ some kid) :
    verify_supabase_jwt (.ok jwks) token now = .error unknownKeyEx ∧
    unknownKeyEx ≠ invalidOrExpiredEx ∧
    unknownKeyEx ≠ malformedHeaderEx ∧
    unknownKeyEx ≠ missingKidEx ∧
    unknownKeyEx ≠ jwksFetchEx := by
  refine ⟨?_, by decide, by decide, by decide, by decide⟩
  have hfind : jwks.keys.find? (fun k => k.kid == some kid) = none := by
    rw [List.find?_eq_none]
    intro k hk
    simpa using habs k hk
  simp [verify_supabase_jwt, fetch_jwks, hh, hne, hfind]

/-- Witness for C3: a key set holding one key with `kid = "old"`, a token whose
header carries `kid = "new"`. -/
theorem C3_unknown_key_discriminated_witness :
    verify_supabase_jwt
        (.ok { keys := [{ kid := some "old", material := "pk1" }] })
        { header := some (some "new"),
          payload := { sub := "alice", exp := none },
          sig := { alg := "RS256", material := "pk1",
                   signedPayload := { sub := "alice", exp := none } } } 0 =
      .error unknownKeyEx :=
  (C3_unknown_key_discriminated
    { keys := [{ kid := some "old", material := "pk1" }] }
    { header := some (some "new"),
      payload := { sub := "alice", exp := none },
      sig := { alg := "RS256", material := "pk1",
               signedPayload := { sub := "alice", exp := none } } }
    "new" 0 rfl (by decide) (by decide)).1

/-- A token whose header does not parse at all. -/
def unparseableToken : SupabaseToken :=
  { header := none,
    payload := { sub := "", exp := none },
    sig := { alg := "", material := "", signedPayload := { sub := "", exp := none } } }

/-- C4 counterexample: the claim says a token with an unparseable header fails
with the malformed outcome without any key-set fetch having been performed; in
the code `fetch_jwks()` runs first, so with a failing key-set fetch the very
same token yields the HTTP 500 key-set-unavailable outcome instead. -/
theorem C4_counterexample :
    verify_supabase_jwt (.error ()) unparseableToken 0 = .error jwksFetchEx ∧
    jwksFetchEx ≠ malformedHeaderEx := by
  exact ⟨rfl, by decide⟩

/-- C4 (amended): for every input token, the verifier first fetches the key set
from the external provider — failing with KeySetUnavailable if that fetch
fails, regardless of the token — and only then parses the unverified header,
failing with Malformed if the header is unparseable or the key identifier is
absent (or empty). -/
theorem C4_fetch_then_parse (token : SupabaseToken) (now : Int) :
    verify_supabase_jwt (.error ()) token now = .error jwksFetchEx ∧
    (∀ jwks : Jwks, token.header = none →
      verify_supabase_jwt (.ok jwks) token now = .error malformedHeaderEx) ∧
    (∀ jwks : Jwks, token.header = some none →
      verify_supabase_jwt (.ok jwks) token now = .error missingKidEx) ∧
    (∀ jwks : Jwks, token.header = some (some "") →
      verify_supabase_jwt (.ok jwks) token now = .error missingKidEx) := by
  refine ⟨rfl, ?_, ?_, ?_⟩
  · intro jwks hh
    simp [verify_supabase_jwt, fetch_jwks, hh]
  · intro jwks hh
    simp [verify_supabase_jwt, fetch_jwks, hh]
  · intro jwks hh
    simp [verify_supabase_jwt, fetch_jwks, hh]

/-- Witness for C4 (amended) at the unparseable token, a failing fetch and an
empty key set. -/
theorem C4_fetch_then_parse_witness :
    verify_supabase_jwt (.error ()) unparseableToken 0 = .error jwksFetchEx ∧
    verify_supabase_jwt (.ok { keys := [] }) unparseableToken 0 =
      .error malformedHeaderEx :=
  ⟨(C4_fetch_then_parse unparseableToken 0).1,
    (C4_fetch_then_parse unparseableToken 0).2.1 { keys := [] } rfl⟩

/-! ## Credential hasher and auth service (`src/services/auth_service.py`) -/

/-- A bcrypt hash string as stored: it embeds the salt and the digest. -/
structure HashedPassword where
  salt : Nat
  digest : Nat × String
deriving DecidableEq, Repr

/-- The ideal bcrypt digest over a salt and a password: two digests are equal
exactly when salt and password agree (no collisions in the model). -/
def bcryptDigest (salt : Nat) (password : String) : Nat × String :=
  (salt, password)

/-- `hash_password(password)`: `pwd_context.hash` draws a fresh random salt
(passed in explicitly here) and embeds salt and digest in the output. -/
def hash_password (password : String) (salt : Nat) : HashedPassword :=
  { salt := salt, digest := bcryptDigest salt password }

/-- `verify_password(plain, hashed)`: `pwd_context.verify` recomputes the
digest with the salt embedded in `hashed` and compares; a total boolean
function, so a mismatch is the value `false`, not an exception. -/
def verify_password (plain : String) (hashed : HashedPassword) : Bool :=
  bcryptDigest hashed.salt plain == hashed.digest

/-- The ORM row of `src/models/user.py`: `users(id, username UNIQUE,
hashed_password)`. -/
structure User where
  id : Nat
  username : String
  hashed_password : HashedPassword
deriving DecidableEq, Repr

/-- The registration payload `UserCreate(username, password)`. -/
structure UserCreate where
  username : String
  password : String
deriving DecidableEq, Repr

/-- `get_user_by_username(db, username)`: `select(User).where(User.username ==
username)`, first result or `None`. The table is modelled as a list of rows. -/
def get_user_by_username (db : List User) (username : String) : Option User :=
  db.find? (fun u => u.username == username)

/-- `authenticate_user(db, username, password)`: look up by username; `None`
when absent, `None` when the password fails hash verification, otherwise the
user. -/
def authenticate_user (db : List User) (username password : String) : Option User :=
  match get_user_by_username db username with
  | none => none
  | some user =>
    if verify_password password user.hashed_password then some user else none

/-- The database error surfaced by `db.commit()` when the `UNIQUE` constraint
on `users.username` is violated. -/
inductive DbError where
  | uniqueViolation
deriving DecidableEq, Repr

/-- `db.add(user)` followed by `await db.commit()`: the database enforces the
`UNIQUE` constraint declared on `users.username` and rolls the transaction
back on violation, leaving the table unchanged. -/
def db_add_commit (db : List User) (u : User) : Except DbError (List User) :=
  if db.any (fun x => x.username == u.username) then .error .uniqueViolation
  else .ok (db ++ [u])

/-- `create_user(db, user)`: hash the password (with a fresh salt), build the
row (with the generated primary key) and commit it; returns the new table
state and the created row, or the commit failure. -/
def create_user (db : List User) (user : UserCreate) (newId salt : Nat) :
    Except DbError (List User × User) :=
  let dbUser : User :=
    { id := newId, username := user.username,
      hashed_password := hash_password user.password salt }
  match db_add_commit db dbUser with
  | .error e => .error e
  | .ok db2 => .ok (db2, dbUser)

/-! ## Theorems for the hasher and the auth service -/

/-- C6: Credential hasher correctness: verifying a secret against its own hash
returns `true`; verifying it against the hash of a different secret returns
`false` — and since `verify_password` is a total Bool-valued function, the
mismatch is reported as the value `false`, never by throwing. -/
theorem C6_hasher_correct (s s2 : String) (salt salt2 : Nat) (hne : s ≠ s2) :
    verify_password s (hash_password s salt) = true ∧
    verify_password s (hash_password s2 salt2) = false := by
  constructor
  · simp [verify_password, hash_password]
  · simp [verify_password, hash_password, bcryptDigest]
    intro h
    exact absurd h hne

/-- Witness for C6 at `s = "secret123"`, `s2 = "hunter2"`, salts 0 and 1. -/
theorem C6_hasher_correct_witness :
    ("secret123" : String) ≠ "hunter2" ∧
    verify_password "secret123" (hash_password "secret123" 0) = true ∧
    verify_password "secret123" (hash_password "hunter2" 1) = false :=
  ⟨by decide, (C6_hasher_correct "secret123" "hunter2" 0 1 (by decide)).1,
    (C6_hasher_correct "secret123" "hunter2" 0 1 (by decide)).2⟩

/-- C7: Local login failure indistinguishability: when no row exists for the
username and when a row exists but the password fails verification,
`authenticate_user` returns the one identical outcome `none`, so the two cases
cannot be distinguished by the caller; when the row exists and the password
verifies, it returns that user. -/
theorem C7_login_indistinguishable (db : List User) (username password : String) :
    (get_user_by_username db username = none →
      authenticate_user db username password = none) ∧
    (∀ u : User, get_user_by_username db username = some u →
      verify_password password u.hashed_password = false →
      authenticate_user db username password = none) ∧
    (∀ u : User, get_user_by_username db username = some u →
      verify_password password u.hashed_password = true →
      authenticate_user db username password = some u) := by
  refine ⟨?_, ?_, ?_⟩
  · intro h
    simp [authenticate_user, h]
  · intro u hu hv
    simp [authenticate_user, hu, hv]
  · intro u hu hv
    simp [authenticate_user, hu, hv]

/-- Witness for C7: a one-row table for `"alice"`; the absent case at username
`"bob"`, the mismatch case at password `"wrong"`, the success case at
`"secret123"`. -/
theorem C7_login_indistinguishable_witness :
    authenticate_user [⟨1, "alice", hash_password "secret123" 0⟩]
      "bob" "secret123" = none ∧
    authenticate_user [⟨1, "alice", hash_password "secret123" 0⟩]
      "alice" "wrong" = none ∧
    authenticate_user [⟨1, "alice", hash_password "secret123" 0⟩]
      "alice" "secret123" = some ⟨1, "alice", hash_password "secret123" 0⟩ :=
  ⟨(C7_login_indistinguishable [⟨1, "alice", hash_password "secret123" 0⟩]
      "bob" "secret123").1 (by decide),
   (C7_login_indistinguishable [⟨1, "alice", hash_password "secret123" 0⟩]
      "alice" "wrong").2.1 ⟨1, "alice", hash_password "secret123" 0⟩
      (by decide) (by decide),
   (C7_login_indistinguishable [⟨1, "alice", hash_password "secret123" 0⟩]
      "alice" "secret123").2.2 ⟨1, "alice", hash_password "secret123" 0⟩
      (by decide) (by decide)⟩

/-- C8: Duplicate registration rejection with atomicity: on a table with no row
for the identifier, the first `create_user` succeeds and appends exactly one
row; the second `create_user` for the same identifier fails with the unique
violation (the AlreadyExists outcome) and — since a failed commit is rolled
back and returns no new table state — the table after the failed call still
holds exactly one row for that identifier. -/
theorem C8_duplicate_registration (db : List User) (user : UserCreate)
    (id1 salt1 id2 salt2 : Nat)
    (hfresh : ∀ u ∈ db, u.username ≠ user.username) :
    create_user db user id1 salt1 =
      .ok (db ++ [User.mk id1 user.username (hash_password user.password salt1)],
           User.mk id1 user.username (hash_password user.password salt1)) ∧
    create_user
        (db ++ [User.mk id1 user.username (hash_password user.password salt1)])
        user id2 salt2 = .error .uniqueViolation ∧
    ((db ++ [User.mk id1 user.username (hash_password user.password salt1)]).filter
        (fun u => u.username == user.username)).length = 1 := by
  have hnone : db.any (fun x => x.username == user.username) = false := by
    rw [List.any_eq_false]
    intro u hu
    simpa using hfresh u hu
  have hfilter : db.filter (fun u => u.username == user.username) = [] := by
    rw [List.filter_eq_nil_iff]
    intro u hu
    simpa using hfresh u hu
  refine ⟨?_, ?_, ?_⟩
  · simp [create_user, db_add_commit, hnone]
  · simp [create_user, db_add_commit]
  · simp [List.filter_append, hfilter]

/-- Witness for C8: empty initial table, identifier `"alice"`. -/
theorem C8_duplicate_registration_witness :
    create_user [] ⟨"alice", "secret123"⟩ 1 0 =
      .ok ([⟨1, "alice", hash_password "secret123" 0⟩],
           ⟨1, "alice", hash_password "secret123" 0⟩) ∧
    create_user [⟨1, "alice", hash_password "secret123" 0⟩]
      ⟨"alice", "secret123"⟩ 2 1 = .error .uniqueViolation := by
  have h := C8_duplicate_registration [] ⟨"alice", "secret123"⟩ 1 0 2 1 (by simp)
  exact ⟨h.1, h.2.1⟩

/-! ## Guarded appointments listing (`src/routes/appointments.py`) -/

/-- The principal returned by `supabase.auth.get_user`. -/
structure Principal where
  id : String
deriving DecidableEq, Repr

/-- `get_current_user`: resolves the bearer token through
`supabase.auth.get_user` (modelled as the map `getUser` describing the
provider's answers) and raises HTTP 401 when no user comes back. -/
def get_current_user (getUser : String → Option Principal) (token : String) :
    Except HTTPException Principal :=
  match getUser token with
  | none => .error { statusCode := 401, detail := "Failed to get user data" }
  | some u => .ok u

/-- One row of the `appointments` table. -/
structure Appointment where
  id : Nat
  user_id : String
  appointment_date : String
deriving DecidableEq, Repr

/-- The body of `get_appointments`: selects all rows of `appointments`
(`select("*")` with no filter; the authenticated `user` is not consulted) and
raises HTTP 500 when the result set is empty (`if not response.data`). -/
def get_appointments (store : List Appointment) (user : Principal) :
    Except HTTPException (List Appointment) :=
  if store.isEmpty then
    .error { statusCode := 500, detail := "Failed to fetch appointments" }
  else .ok store

/-- The full route `GET /appointments`: the `Depends(get_current_user)` guard
followed by the handler body. -/
def appointments_route (getUser : String → Option Principal)
    (store : List Appointment) (token : String) :
    Except HTTPException (List Appointment) :=
  match get_current_user getUser token with
  | .error e => .error e
  | .ok user => get_appointments store user

/-! ## Widgets-by-email route (`src/routes/auth.py`) -/

/-- One row of the `users` table as read by the widgets route. -/
structure UsersRow where
  id : String
  email : String
deriving DecidableEq, Repr

/-- One row of the `widgets` table. -/
structure Widget where
  id : Nat
  user_id : String
deriving DecidableEq, Repr

/-- The transport-level context of a request: the optional `Authorization`
header. `POST /widgets` declares no security dependency, so FastAPI hands the
handler only the parsed body and this context is never consulted. -/
structure RequestContext where
  authorization : Option String
deriving DecidableEq, Repr

/-- `get_widgets_by_email(user_email)`: select `id` from `users` where
`email` matches (404 when no row), then select all `widgets` with that
`user_id` (500 when the result set is empty, `if not widgets_response.data`).
The request context (bearer token, if any) is an argument only to reflect
transport; the body never reads it. -/
def get_widgets_by_email (users : List UsersRow) (widgets : List Widget)
    (ctx : RequestContext) (email : String) :
    Except HTTPException (List Widget) :=
  match (users.filter (fun r => r.email == email)).head? with
  | none => .error { statusCode := 404, detail := "User not found" }
  | some row =>
    let data := widgets.filter (fun w => w.user_id == row.id)
    if data.isEmpty then
      .error { statusCode := 500, detail := "Failed to fetch widgets" }
    else .ok data

/-! ## Theorems for the routes -/

/-- C9: The appointments listing is independent of the caller's identity: two
distinct authenticated principals receive identical responses, and a
successful response is the complete appointment store, not a restriction to
the caller's own appointments. -/
theorem C9_listing_identity_independent (getUser : String → Option Principal)
    (store : List Appointment) (t1 t2 : String) (u1 u2 : Principal)
    (h1 : getUser t1 = some u1) (h2 : getUser t2 = some u2) (hne : u1 ≠ u2) :
    appointments_route getUser store t1 = appointments_route getUser store t2 ∧
    (store ≠ [] → appointments_route getUser store t1 = .ok store) := by
  constructor
  · simp [appointments_route, get_current_user, h1, h2, get_appointments]
  · intro hs
    simp [appointments_route, get_current_user, h1, get_appointments,
      List.isEmpty_iff, hs]

/-- Witness for C9: the provider maps each of two tokens to its own principal;
the store holds one appointment owned by the first principal only, and both
callers receive it. -/
theorem C9_listing_identity_independent_witness :
    appointments_route (fun t => some ⟨t⟩) [⟨1, "a", "2025-01-01"⟩] "a" =
      appointments_route (fun t => some ⟨t⟩) [⟨1, "a", "2025-01-01"⟩] "b" ∧
    appointments_route (fun t => some ⟨t⟩) [⟨1, "a", "2025-01-01"⟩] "a" =
      .ok [⟨1, "a", "2025-01-01"⟩] := by
  have h := C9_listing_identity_independent (fun t => some ⟨t⟩)
    [⟨1, "a", "2025-01-01"⟩] "a" "b" ⟨"a"⟩ ⟨"b"⟩ rfl rfl (by decide)
  exact ⟨h.1, h.2 (by decide)⟩

/-- C10: The widgets-by-email route requires no authentication: its response
is the same under any two request contexts (in particular with no
Authorization header at all), and for an email whose stored user id is `uid`
it returns the widgets with `user_id = uid` whenever that set is non-empty —
no token verification guards the data. -/
theorem C10_widgets_no_auth (users : List UsersRow) (widgets : List Widget)
    (email : String) (ctx1 ctx2 : RequestContext) :
    get_widgets_by_email users widgets ctx1 email =
      get_widgets_by_email users widgets ctx2 email ∧
    (∀ row : UsersRow, (users.filter (fun r => r.email == email)).head? = some row →
      widgets.filter (fun w => w.user_id == row.id) ≠ [] →
      get_widgets_by_email users widgets ctx1 email =
        .ok (widgets.filter (fun w => w.user_id == row.id))) := by
  constructor
  · rfl
  · intro row hrow hw
    simp [get_widgets_by_email, hrow, List.isEmpty_iff, hw]

/-- Witness for C10: one user `"alice@x.io" ↦ "u1"` and one widget of `"u1"`;
a request with a bearer header and one with none get the same answer. -/
theorem C10_widgets_no_auth_witness :
    get_widgets_by_email [⟨"u1", "alice@x.io"⟩] [⟨7, "u1"⟩]
        ⟨some "Bearer tok"⟩ "alice@x.io" =
      get_widgets_by_email [⟨"u1", "alice@x.io"⟩] [⟨7, "u1"⟩]
        ⟨none⟩ "alice@x.io" ∧
    get_widgets_by_email [⟨"u1", "alice@x.io"⟩] [⟨7, "u1"⟩]
        ⟨some "Bearer tok"⟩ "alice@x.io" = .ok [⟨7, "u1"⟩] := by
  have h := C10_widgets_no_auth [⟨"u1", "alice@x.io"⟩] [⟨7, "u1"⟩]
    "alice@x.io" ⟨some "Bearer tok"⟩ ⟨none⟩
  exact ⟨h.1, h.2 ⟨"u1", "alice@x.io"⟩ (by decide) (by decide)⟩

end PlaindeskAuth
